import Mathlib

/-
Verification development for libHLC (src/libhlc/hlc.cpp).

The file gives a shallow embedding of the orchestration logic of hlc.cpp.
The underlying LLVM framework (verifier verdicts, pass transformations,
target registry, linker merge) is external to the repository; it is
modelled by an explicit environment record `Env` of abstract semantic
functions, while every orchestration decision made by hlc.cpp itself
(control flow, flag computation, pass-bundle construction, return codes)
is translated statement by statement from the source.

The C++ locals `OptLevelO1/O2/O3` and `StandardLinkOpts` in `Optimize`
are declared without initializers and are read on paths that never wrote
them; their indeterminate initial contents are made explicit as the
`UninitBools` parameter.
-/

namespace LibHLC

/-- In-memory IR module state.  The fields record exactly the observable
state hlc.cpp manipulates: the external verifier's verdict (`broken`),
debug metadata presence, the target triple, the data-layout descriptor
(with its "still default" flag), the function-attribute overrides applied
by setFunctionAttributes, and the printed text used by to_string. -/
structure Module where
  broken : Bool
  hasDebugInfo : Bool
  targetTriple : String
  dataLayout : String
  dataLayoutIsDefault : Bool
  attrsCPU : String
  attrsFeatures : String
  irText : String
deriving DecidableEq, Repr

/-- llvm::verifyModule returns true when the module is broken; the
verdict of the external verifier is carried on the module state. -/
def verifyModule (M : Module) : Bool := M.broken

/-- llvm::StripDebugInfo. -/
def stripDebugInfo (M : Module) : Module := { M with hasDebugInfo := false }

/-- setFunctionAttributes(CPUStr, FeaturesStr, M): overrides function
attributes from the CPU and feature strings. -/
def setFunctionAttributes (CPUStr FeaturesStr : String) (M : Module) : Module :=
  { M with attrsCPU := CPUStr, attrsFeatures := FeaturesStr }

/-- Module::setTargetTriple. -/
def Module.setTargetTriple (M : Module) (t : String) : Module :=
  { M with targetTriple := t }

/-- Module::setDataLayout; an empty descriptor string is the default layout. -/
def Module.setDataLayout (M : Module) (s : String) : Module :=
  { M with dataLayout := s, dataLayoutIsDefault := s == "" }

/-- ModuleRef::to_string prints the module. -/
def Module.to_string (M : Module) : String := M.irText

/-- llvm::CloneModule: a deep copy; in the pure model the copy is the
same value, held separately from the original. -/
def cloneModule (M : Module) : Module := M

/-- The fixed target identifier: static const std::string MArch = "amdgcn". -/
def MArch : String := "amdgcn"

/-- CodeGenOpt::Level. -/
inductive CodeGenOptLevel
  | None
  | Less
  | Default
  | Aggressive
deriving DecidableEq, Repr

/-- GetCodeGenOptLevel (hlc.cpp lines 124-137): switch on OptLevel with
cases 1, 2, 3 and a default returning CodeGenOpt::None. -/
def GetCodeGenOptLevel (OptLevel : Int) : CodeGenOptLevel :=
  if OptLevel = 1 then CodeGenOptLevel.Less
  else if OptLevel = 2 then CodeGenOptLevel.Default
  else if OptLevel = 3 then CodeGenOptLevel.Aggressive
  else CodeGenOptLevel.None

/-- The seven bool switches at the top of the libHLC namespace, plus the
command-line-driven initial values that PassManagerBuilder's constructor
reads for its vectorization fields (external cl::opt state, default
false). -/
structure Globals where
  DisableInline : Bool
  UnitAtATime : Bool
  DisableLoopVectorization : Bool
  DisableSLPVectorization : Bool
  StripDebug : Bool
  DisableOptimizations : Bool
  DisableSimplifyLibCalls : Bool
  cmdlineLoopVectorize : Bool
  cmdlineSLPVectorize : Bool
deriving DecidableEq, Repr

/-- PassManagerBuilder's inliner slot. -/
inductive InlinerKind
  | noInliner
  | functionInlining (optLevel sizeLevel : Nat)
  | functionInliningDefault
  | alwaysInline
deriving DecidableEq, Repr

/-- The PassManagerBuilder fields hlc.cpp configures. -/
structure PMBuilder where
  OptLevel : Nat
  SizeLevel : Nat
  Inliner : InlinerKind
  DisableUnitAtATime : Bool
  DisableUnrollLoops : Bool
  LoopVectorize : Bool
  SLPVectorize : Bool
  VerifyInput : Bool
deriving DecidableEq, Repr

/-- The builder configured by AddOptimizationPasses (hlc.cpp lines
241-269), field by field.  LoopVectorize starts from the
command-line-driven constructor default and is only recomputed when that
default is false, exactly as in the source's else-if; SLPVectorize is
overwritten unconditionally. -/
def mkOptBuilder (g : Globals) (OptLevel SizeLevel : Nat) : PMBuilder :=
  { OptLevel := OptLevel
    SizeLevel := SizeLevel
    Inliner :=
      if g.DisableInline then InlinerKind.noInliner
      else if OptLevel > 1 then InlinerKind.functionInlining OptLevel SizeLevel
      else InlinerKind.alwaysInline
    DisableUnitAtATime := !g.UnitAtATime
    DisableUnrollLoops := OptLevel == 0
    LoopVectorize :=
      if g.DisableLoopVectorization then false
      else if !g.cmdlineLoopVectorize then
        decide (OptLevel > 1) && decide (SizeLevel < 2)
      else g.cmdlineLoopVectorize
    SLPVectorize :=
      if g.DisableSLPVectorization then false
      else decide (OptLevel > 1) && decide (SizeLevel < 2)
    VerifyInput := false }

/-- The builder configured by AddStandardLinkPasses (hlc.cpp lines
275-285): VerifyInput set, OptLevel forced to 0 only under
DisableOptimizations (the constructor default is 2), and the default
function-inlining pass unless DisableInline. -/
def mkLinkBuilder (g : Globals) : PMBuilder :=
  { OptLevel := if g.DisableOptimizations then 0 else 2
    SizeLevel := 0
    Inliner :=
      if !g.DisableInline then InlinerKind.functionInliningDefault
      else InlinerKind.noInliner
    DisableUnitAtATime := false
    DisableUnrollLoops := false
    LoopVectorize := g.cmdlineLoopVectorize
    SLPVectorize := g.cmdlineSLPVectorize
    VerifyInput := true }

/-- A pass added to the module-level legacy::PassManager in hlc.cpp. -/
inductive Pass
  | targetLibraryInfo (allFunctionsDisabled : Bool)
  | targetTransformInfo (fromMachine : Bool)
  | ltoBundle (b : PMBuilder)
  | moduleBundle (b : PMBuilder)
  | verifier
deriving DecidableEq, Repr

/-- A pass added to the legacy::FunctionPassManager in hlc.cpp. -/
inductive FPass
  | targetTransformInfo (fromMachine : Bool)
  | verifier
  | functionBundle (b : PMBuilder)
deriving DecidableEq, Repr

/-- Transformation bundles (populateLTOPassManager /
populateModulePassManager output); analysis wiring and the verifier are
not transformations. -/
def Pass.isTransform : Pass → Bool
  | Pass.ltoBundle _ => true
  | Pass.moduleBundle _ => true
  | _ => false

/-- Transformation bundle on the function pipeline. -/
def FPass.isTransform : FPass → Bool
  | FPass.functionBundle _ => true
  | _ => false

/-- A registered backend target (TargetRegistry entry). -/
structure Target where
  name : String
deriving DecidableEq, Repr

/-- A constructed TargetMachine. -/
structure TargetMachine where
  id : Nat
deriving DecidableEq, Repr

/-- TargetMachine::CGFT file kinds used by CompileModule. -/
inductive FileTypeKind
  | assemblyFile
  | objectFile
deriving DecidableEq, Repr

/-- Abstract semantics of the external LLVM framework: triple
normalization and arch parsing, the target registry, target-machine
construction and its data layout, the effect of the three transformation
bundles on a module, backend pass construction/execution, and the linker
merge (error flag plus merged destination). -/
structure Env where
  normalizeTriple : String → String
  tripleArchKnown : String → Bool
  lookupTarget : String → String → Option Target
  createTargetMachine :
      Target → String → String → String → CodeGenOptLevel → Option TargetMachine
  machineDataLayout : TargetMachine → String
  runLTOBundle : PMBuilder → Module → Module
  runModuleBundle : PMBuilder → Module → Module
  runFunctionBundle : PMBuilder → Module → Module
  addPassesUnsupported : TargetMachine → FileTypeKind → Bool
  runBackend : TargetMachine → FileTypeKind → Module → String × Module
  linkModules : Module → Module → Bool × Module

/-- Running one module-level pass: analysis wiring and the verifier do
not change the module; the two transformation bundles apply the
framework's abstract semantics. -/
def runPass (env : Env) (M : Module) : Pass → Module
  | Pass.targetLibraryInfo _ => M
  | Pass.targetTransformInfo _ => M
  | Pass.ltoBundle b => env.runLTOBundle b M
  | Pass.moduleBundle b => env.runModuleBundle b M
  | Pass.verifier => M

/-- legacy::PassManager::run over the accumulated pass list. -/
def runPasses (env : Env) (ps : List Pass) (M : Module) : Module :=
  List.foldl (runPass env) M ps

/-- Running one function-level pass over the whole module. -/
def runFPass (env : Env) (M : Module) : FPass → Module
  | FPass.functionBundle b => env.runFunctionBundle b M
  | _ => M

/-- The FPasses doInitialization / per-function run / doFinalization
cycle over the accumulated function-pass list. -/
def runFPasses (env : Env) (ps : List FPass) (M : Module) : Module :=
  List.foldl (runFPass env) M ps

/-- AddOptimizationPasses (hlc.cpp lines 235-273): a verifier pass is
added to the function pipeline first, then one builder configures both
populateFunctionPassManager and populateModulePassManager. -/
def AddOptimizationPasses (g : Globals) (MPM : List Pass) (FPM : List FPass)
    (OptLevel SizeLevel : Nat) : List Pass × List FPass :=
  let FPM := FPM ++ [FPass.verifier]
  let b := mkOptBuilder g OptLevel SizeLevel
  (MPM ++ [Pass.moduleBundle b], FPM ++ [FPass.functionBundle b])

/-- GetTargetMachine (hlc.cpp lines 288-307): registry lookup of the
fixed MArch against the triple, then target-machine construction at the
level given by GetCodeGenOptLevel. -/
def GetTargetMachine (env : Env) (TheTriple CPUStr FeaturesStr : String)
    (OptLevel : Int) : Option TargetMachine :=
  match env.lookupTarget MArch TheTriple with
  | Option.none => Option.none
  | some t =>
      env.createTargetMachine t TheTriple CPUStr FeaturesStr
        (GetCodeGenOptLevel OptLevel)

/-- The indeterminate initial contents of the four uninitialized bool
locals of Optimize (OptLevelO1, OptLevelO2, OptLevelO3,
StandardLinkOpts). -/
structure UninitBools where
  o1 : Bool
  o2 : Bool
  o3 : Bool
  slo : Bool
deriving DecidableEq, Repr

/-- The diagnostic Optimize prints before exit(1). -/
def brokenInputMsg : String := "error: input module is broken!"

/-- Outcome of Optimize: either the process exited, or the function
finished, recording the final module state, the module- and
function-pass lists that were built and run, and whether the final
verifier pass succeeded. -/
inductive OptimizeResult
  | exited (code : Nat) (msg : String)
  | finished (M : Module) (modulePasses : List Pass) (functionPasses : List FPass)
      (finalVerifyOk : Bool)
deriving DecidableEq, Repr

/-- Optimize (hlc.cpp lines 309-423), translated statement by statement:
the level-flag switch (whose unset branches leave the indeterminate
values `u`), optional debug strip, the verify-or-exit(1) precondition
check, triple normalization, target-machine lookup, function-attribute
overrides, the TargetLibraryInfo pass with all library functions
disabled, data-layout defaulting, the TargetTransformInfo pass, the
conditional FunctionPassManager, the standard-link bundle when
StandardLinkOpts reads true, the three per-level AddOptimizationPasses
calls (each with SizeLevel 0), the function-pass run, the final verifier
pass, and the module pass-manager run. -/
def Optimize (g : Globals) (env : Env) (u : UninitBools) (M : Module)
    (OptLevel SizeLevel Verify : Int) : OptimizeResult :=
  let OptLevelO1 := if OptLevel = 1 then true else u.o1
  let OptLevelO2 := if OptLevel = 2 then true else u.o2
  let OptLevelO3 := if OptLevel = 3 then true else u.o3
  let StandardLinkOpts := if OptLevel > 0 then true else u.slo
  let M := if g.StripDebug then stripDebugInfo M else M
  if verifyModule M then
    OptimizeResult.exited 1 brokenInputMsg
  else
    let M := M.setTargetTriple (env.normalizeTriple "amdgcn--amdhsa")
    let ModuleTriple := M.targetTriple
    let CPUStr := "fiji"
    let FeaturesStr := ""
    let Machine :=
      if env.tripleArchKnown ModuleTriple then
        GetTargetMachine env ModuleTriple CPUStr FeaturesStr OptLevel
      else Option.none
    let M := setFunctionAttributes CPUStr FeaturesStr M
    let Passes : List Pass := [Pass.targetLibraryInfo true]
    let M := if M.dataLayoutIsDefault then M.setDataLayout "" else M
    let Passes := Passes ++ [Pass.targetTransformInfo Machine.isSome]
    let createFP := OptLevelO1 || OptLevelO2 || OptLevelO3
    let FPasses : List FPass :=
      if createFP then [FPass.targetTransformInfo Machine.isSome] else []
    let Passes :=
      if StandardLinkOpts then Passes ++ [Pass.ltoBundle (mkLinkBuilder g)]
      else Passes
    let PF1 :=
      if OptLevelO1 then AddOptimizationPasses g Passes FPasses 1 0
      else (Passes, FPasses)
    let PF2 := if OptLevelO2 then AddOptimizationPasses g PF1.1 PF1.2 2 0 else PF1
    let PF3 := if OptLevelO3 then AddOptimizationPasses g PF2.1 PF2.2 3 0 else PF2
    let M := if createFP then runFPasses env PF3.2 M else M
    let Passes := PF3.1 ++ [Pass.verifier]
    let M := runPasses env Passes M
    OptimizeResult.finished M Passes PF3.2 (!verifyModule M)

/-- The per-level transformation-bundle builders occurring in the module
pass list of an Optimize outcome. -/
def OptimizeResult.moduleBundles : OptimizeResult → List PMBuilder
  | OptimizeResult.exited _ _ => []
  | OptimizeResult.finished _ ps _ _ =>
      ps.filterMap (fun p =>
        match p with
        | Pass.moduleBundle b => some b
        | _ => Option.none)

/-- The module pass list of an Optimize outcome. -/
def OptimizeResult.modulePassList : OptimizeResult → List Pass
  | OptimizeResult.exited _ _ => []
  | OptimizeResult.finished _ ps _ _ => ps

/-- The function pass list of an Optimize outcome. -/
def OptimizeResult.functionPassList : OptimizeResult → List FPass
  | OptimizeResult.exited _ _ => []
  | OptimizeResult.finished _ _ fps _ => fps

/-- Whether any transformation bundle was built and run. -/
def OptimizeResult.hasTransformPass (r : OptimizeResult) : Bool :=
  r.modulePassList.any Pass.isTransform || r.functionPassList.any FPass.isTransform

/-- Whether the final verifier pass succeeded. -/
def OptimizeResult.finalVerifyPassed : OptimizeResult → Bool
  | OptimizeResult.exited _ _ => false
  | OptimizeResult.finished _ _ _ ok => ok

/-- Outcome of HLC_ModuleOptimize: the early range-check return, a
process exit from Optimize, or a normal return of 1 with the Optimize
record. -/
inductive HLCOptimizeOutcome
  | earlyReturn (ret : Int)
  | exited (code : Nat) (msg : String)
  | returned (ret : Int) (M : Module) (modulePasses : List Pass)
      (functionPasses : List FPass) (finalVerifyOk : Bool)
deriving DecidableEq, Repr

/-- Lifting an Optimize outcome to the wrapper's outcome (the wrapper
returns 1 after Optimize). -/
def liftOptimize : OptimizeResult → HLCOptimizeOutcome
  | OptimizeResult.exited c m => HLCOptimizeOutcome.exited c m
  | OptimizeResult.finished M ps fps ok => HLCOptimizeOutcome.returned 1 M ps fps ok

/-- HLC_ModuleOptimize (hlc.cpp lines 581-588): the two conjunctive
range checks, then dispatch to Optimize and return 1. -/
def HLC_ModuleOptimize (g : Globals) (env : Env) (u : UninitBools) (M : Module)
    (OptLevel SizeLevel Verify : Int) : HLCOptimizeOutcome :=
  if OptLevel < 0 ∧ OptLevel > 3 then HLCOptimizeOutcome.earlyReturn 0
  else if SizeLevel < 0 ∧ SizeLevel > 2 then HLCOptimizeOutcome.earlyReturn 0
  else liftOptimize (Optimize g env u M OptLevel SizeLevel Verify)

/-- HLC_ModuleLinkIn (hlc.cpp lines 591-606): clone src, verify dst then
src (returning 0 if either is broken), then linkModules on dst and the
clone; returns the negation of the linker's error status.  The result is
(return value, dst state after the call, src state after the call). -/
def HLC_ModuleLinkIn (env : Env) (Dst Src : Module) : Int × Module × Module :=
  let sM := cloneModule Src
  if verifyModule Dst then (0, Dst, Src)
  else if verifyModule Src then (0, Dst, Src)
  else
    let r := env.linkModules Dst sM
    (if r.1 then 0 else 1, r.2, Src)

/-- Outcome of CompileModule: the assert on target-machine allocation,
or a return of (status, output-buffer contents, final clone state). -/
inductive CompileOutcome
  | asserted (msg : String)
  | ret (status : Int) (buf : String) (mod : Module)
deriving DecidableEq, Repr

/-- CompileModule (hlc.cpp lines 436-526): fixed normalized triple,
registry lookup of MArch (on failure the error is printed and 0 is
returned with nothing written to the stream), fixed CPU/feature strings,
the OLvl switch (initialized to Default, so out-of-range levels keep
Default), target-machine creation (asserted non-null), data-layout and
function-attribute configuration of the clone, file-type selection, the
addPassesToEmitFile support check (unsupported: message and return 1),
then the backend run writing the buffer and return 0. -/
def CompileModule (env : Env) (mod : Module) (emitBRIG : Bool) (OptLevel : Int) :
    CompileOutcome :=
  let TheTriple := env.normalizeTriple "amdgcn--amdhsa"
  match env.lookupTarget MArch TheTriple with
  | Option.none => CompileOutcome.ret 0 "" mod
  | some TheTarget =>
    let CPUStr := "fiji"
    let FeaturesStr := "+promote-alloca,+fp64-denormals,+flat-for-global,"
    let OLvl :=
      if OptLevel = 0 then CodeGenOptLevel.None
      else if OptLevel = 1 then CodeGenOptLevel.Less
      else if OptLevel = 2 then CodeGenOptLevel.Default
      else if OptLevel = 3 then CodeGenOptLevel.Aggressive
      else CodeGenOptLevel.Default
    match env.createTargetMachine TheTarget TheTriple CPUStr FeaturesStr OLvl with
    | Option.none => CompileOutcome.asserted "Could not allocate target machine!"
    | some TM =>
      let mod := mod.setDataLayout (env.machineDataLayout TM)
      let mod := setFunctionAttributes CPUStr FeaturesStr mod
      let FileType :=
        if emitBRIG then FileTypeKind.objectFile else FileTypeKind.assemblyFile
      if env.addPassesUnsupported TM FileType then CompileOutcome.ret 1 "" mod
      else
        let r := env.runBackend TM FileType mod
        CompileOutcome.ret 0 r.1 r.2

/-- Outcome at the emit boundary: the CompileModule assert, or a return
value together with what was written through the output parameter
(Option.none when the output parameter was never written). -/
inductive EmitOutcome
  | asserted (msg : String)
  | ret (retVal : Int) (output : Option String)
deriving DecidableEq, Repr

/-- HLC_ModuleEmitHSAIL (hlc.cpp lines 609-624): clone the module, the
(always-false) range check, CompileModule on the clone with assembly
output; nonzero status returns 0 with no output, otherwise the buffer is
handed out and 1 is returned.  The second component is the caller's
module state after the call. -/
def HLC_ModuleEmitHSAIL (env : Env) (M : Module) (OptLevel : Int) :
    EmitOutcome × Module :=
  let sM := cloneModule M
  if OptLevel < 0 ∧ OptLevel > 3 then (EmitOutcome.ret 0 Option.none, M)
  else
    match CompileModule env sM false OptLevel with
    | CompileOutcome.asserted m => (EmitOutcome.asserted m, M)
    | CompileOutcome.ret status buf _ =>
      if status ≠ 0 then (EmitOutcome.ret 0 Option.none, M)
      else (EmitOutcome.ret 1 (some buf), M)

/-- HLC_ModuleEmitBRIG (hlc.cpp lines 626-642): same shape as
HLC_ModuleEmitHSAIL but with object output, and on the success path the
buffer contents are copied out and the buffer size is returned. -/
def HLC_ModuleEmitBRIG (env : Env) (M : Module) (OptLevel : Int) :
    EmitOutcome × Module :=
  let sM := cloneModule M
  if OptLevel < 0 ∧ OptLevel > 3 then (EmitOutcome.ret 0 Option.none, M)
  else
    match CompileModule env sM true OptLevel with
    | CompileOutcome.asserted m => (EmitOutcome.asserted m, M)
    | CompileOutcome.ret status buf _ =>
      if status ≠ 0 then (EmitOutcome.ret 0 Option.none, M)
      else (EmitOutcome.ret (Int.ofNat buf.length) (some buf), M)

/-- ModuleRef: the caller-visible handle, holding a possibly-null module
pointer. -/
structure ModuleRef where
  M : Option Module
deriving DecidableEq, Repr

/-- ModuleRef::operator bool: M != nullptr. -/
def ModuleRef.boolCast (r : ModuleRef) : Bool := r.M.isSome

/-- ModuleRef::destroy (hlc.cpp lines 78-82): delete the module and null
the pointer. -/
def ModuleRef.destroy (r : ModuleRef) : ModuleRef := { r with M := Option.none }

/- Concrete instances used to evaluate the definitions on closed inputs. -/

/-- The source's default global-switch state (UnitAtATime is the only
switch defaulting to true) with default command-line vectorization
state. -/
def g0 : Globals :=
  { DisableInline := false
    UnitAtATime := true
    DisableLoopVectorization := false
    DisableSLPVectorization := false
    StripDebug := false
    DisableOptimizations := false
    DisableSimplifyLibCalls := false
    cmdlineLoopVectorize := false
    cmdlineSLPVectorize := false }

/-- All four indeterminate locals happening to hold false. -/
def u0 : UninitBools := { o1 := false, o2 := false, o3 := false, slo := false }

/-- Indeterminate locals holding nonzero garbage in OptLevelO1 and
StandardLinkOpts. -/
def garbageU : UninitBools := { o1 := true, o2 := false, o3 := false, slo := true }

/-- A well-formed sample module. -/
def M0 : Module :=
  { broken := false
    hasDebugInfo := false
    targetTriple := ""
    dataLayout := ""
    dataLayoutIsDefault := true
    attrsCPU := ""
    attrsFeatures := ""
    irText := "define void f" }

/-- A module the verifier rejects. -/
def Mbad : Module := { M0 with broken := true, irText := "bad module" }

/-- A concrete framework environment: the amdgcn target resolves, every
file type is supported, and the transformation bundles and the linker
act trivially. -/
def idEnv : Env :=
  { normalizeTriple := fun s => s
    tripleArchKnown := fun _ => true
    lookupTarget := fun _ _ => some { name := "amdgcn" }
    createTargetMachine := fun _ _ _ _ _ => some { id := 0 }
    machineDataLayout := fun _ => "e-p:64:64"
    runLTOBundle := fun _ M => M
    runModuleBundle := fun _ M => M
    runFunctionBundle := fun _ M => M
    addPassesUnsupported := fun _ _ => false
    runBackend := fun _ _ M => ("backend output", M)
    linkModules := fun d s => (false, { d with irText := d.irText ++ s.irText }) }

/-- The concrete environment in which the target registry cannot resolve
the fixed amdgcn target. -/
def noTargetEnv : Env := { idEnv with lookupTarget := fun _ _ => Option.none }

/- Theorems. -/

/-- The debug-strip step does not change the verifier's verdict, so the
verdict at Optimize's precondition check is the input module's. -/
theorem verify_after_strip (g : Globals) (M : Module) (hM : M.broken = false) :
    verifyModule (if g.StripDebug then stripDebugInfo M else M) = false := by
  cases h : g.StripDebug <;> simp [h, verifyModule, stripDebugInfo, hM]

/-- C1: if the module fails verification at the check that precedes pass
construction, Optimize terminates the whole process via exit(1) with the
broken-input diagnostic (and hence HLC_ModuleOptimize never returns a
recoverable failure to its caller), for every module and every
optLevel/sizeLevel/verify combination. -/
theorem optimize_broken_module_terminates_process (g : Globals) (env : Env)
    (u : UninitBools) (M : Module) (OptLevel SizeLevel Verify : Int)
    (h : verifyModule (if g.StripDebug then stripDebugInfo M else M) = true) :
    Optimize g env u M OptLevel SizeLevel Verify =
      OptimizeResult.exited 1 brokenInputMsg ∧
    HLC_ModuleOptimize g env u M OptLevel SizeLevel Verify =
      HLCOptimizeOutcome.exited 1 brokenInputMsg := by
  have h1 : ¬(OptLevel < 0 ∧ OptLevel > 3) := by omega
  have h2 : ¬(SizeLevel < 0 ∧ SizeLevel > 2) := by omega
  have hO : Optimize g env u M OptLevel SizeLevel Verify =
      OptimizeResult.exited 1 brokenInputMsg := by
    simp [Optimize, h]
  exact ⟨hO, by simp [HLC_ModuleOptimize, h1, h2, hO, liftOptimize]⟩

/-- Witness for C1 at a concrete broken module. -/
theorem optimize_broken_module_terminates_process_witness :
    verifyModule (if g0.StripDebug then stripDebugInfo Mbad else Mbad) = true ∧
    (Optimize g0 idEnv u0 Mbad 2 1 1 = OptimizeResult.exited 1 brokenInputMsg ∧
     HLC_ModuleOptimize g0 idEnv u0 Mbad 2 1 1 =
       HLCOptimizeOutcome.exited 1 brokenInputMsg) :=
  ⟨by decide,
   optimize_broken_module_terminates_process g0 idEnv u0 Mbad 2 1 1 (by decide)⟩

/-- C4: for every integer OptLevel and SizeLevel the conjunctive range
conditions of the boundary layer are false, so HLC_ModuleOptimize never
takes its early failure return and always dispatches straight to
Optimize. -/
theorem range_check_always_false_no_validation (OptLevel SizeLevel : Int) :
    decide (OptLevel < 0 ∧ OptLevel > 3) = false ∧
    decide (SizeLevel < 0 ∧ SizeLevel > 2) = false ∧
    ∀ (g : Globals) (env : Env) (u : UninitBools) (M : Module) (Verify : Int),
      HLC_ModuleOptimize g env u M OptLevel SizeLevel Verify =
        liftOptimize (Optimize g env u M OptLevel SizeLevel Verify) := by
  have h1 : ¬(OptLevel < 0 ∧ OptLevel > 3) := by omega
  have h2 : ¬(SizeLevel < 0 ∧ SizeLevel > 2) := by omega
  refine ⟨by simpa using h1, by simpa using h2, ?_⟩
  intro g env u M Verify
  simp [HLC_ModuleOptimize, h1, h2]

/-- C6: Optimize never consults its SizeLevel argument (every
AddOptimizationPasses call passes size level 0), so two runs from equal
input states that differ only in the size level produce equal outcomes,
both at the Optimize level and through HLC_ModuleOptimize. -/
theorem optimize_independent_of_sizeLevel (g : Globals) (env : Env)
    (u : UninitBools) (M : Module) (OptLevel S1 S2 Verify : Int) :
    Optimize g env u M OptLevel S1 Verify = Optimize g env u M OptLevel S2 Verify ∧
    HLC_ModuleOptimize g env u M OptLevel S1 Verify =
      HLC_ModuleOptimize g env u M OptLevel S2 Verify := by
  have h : Optimize g env u M OptLevel S1 Verify =
      Optimize g env u M OptLevel S2 Verify := rfl
  have h1 : ¬(S1 < 0 ∧ S1 > 2) := by omega
  have h2 : ¬(S2 < 0 ∧ S2 > 2) := by omega
  exact ⟨h, by simp [HLC_ModuleOptimize, h1, h2, h]⟩

/-- C9: ModuleRef::destroy nulls the internal module pointer, so after
destroy the handle no longer refers to a module, its boolean conversion
is false, and a repeated destroy leaves the same invalidated handle. -/
theorem destroy_invalidates_handle (r : ModuleRef) :
    (r.destroy).M = Option.none ∧ (r.destroy).boolCast = false ∧
    (r.destroy).destroy = r.destroy := by
  simp [ModuleRef.destroy, ModuleRef.boolCast]

/-- C10: GetCodeGenOptLevel maps 1 to Less, 2 to Default, 3 to
Aggressive, and every other integer (0 included) to None. -/
theorem getCodeGenOptLevel_mapping :
    GetCodeGenOptLevel 1 = CodeGenOptLevel.Less ∧
    GetCodeGenOptLevel 2 = CodeGenOptLevel.Default ∧
    GetCodeGenOptLevel 3 = CodeGenOptLevel.Aggressive ∧
    GetCodeGenOptLevel 0 = CodeGenOptLevel.None ∧
    ∀ OptLevel : Int, OptLevel ≠ 1 → OptLevel ≠ 2 → OptLevel ≠ 3 →
      GetCodeGenOptLevel OptLevel = CodeGenOptLevel.None := by
  refine ⟨rfl, rfl, rfl, rfl, ?_⟩
  intro n h1 h2 h3
  simp [GetCodeGenOptLevel, h1, h2, h3]

/-- Witness for C10 at the out-of-range input -2. -/
theorem getCodeGenOptLevel_mapping_witness :
    ((-2 : Int) ≠ 1 ∧ (-2 : Int) ≠ 2 ∧ (-2 : Int) ≠ 3) ∧
    GetCodeGenOptLevel (-2) = CodeGenOptLevel.None :=
  ⟨⟨by decide, by decide, by decide⟩,
   getCodeGenOptLevel_mapping.2.2.2.2 (-2) (by decide) (by decide) (by decide)⟩

/-- C7: HLC_ModuleLinkIn verifies dst and then src before any merge; if
either is broken it returns 0 and both modules, dst in particular, are
exactly in their pre-call state. -/
theorem link_broken_operand_fails_without_mutation (env : Env) (Dst Src : Module)
    (h : verifyModule Dst = true ∨ verifyModule Src = true) :
    HLC_ModuleLinkIn env Dst Src = (0, Dst, Src) := by
  rcases h with h | h
  · simp [HLC_ModuleLinkIn, h]
  · cases hd : verifyModule Dst <;> simp [HLC_ModuleLinkIn, hd, h]

/-- Witness for C7 with a broken destination module. -/
theorem link_broken_operand_fails_without_mutation_witness :
    (verifyModule Mbad = true ∨ verifyModule M0 = true) ∧
    HLC_ModuleLinkIn idEnv Mbad M0 = (0, Mbad, M0) :=
  ⟨Or.inl (by decide),
   link_broken_operand_fails_without_mutation idEnv Mbad M0 (Or.inl (by decide))⟩

/-- C8: both emit operations work on a clone, so for every environment,
module and optLevel the caller's module state after the call equals the
state before it, and in particular its serialization is unchanged,
whether the emit succeeds or fails. -/
theorem emit_does_not_mutate_caller_module (env : Env) (M : Module)
    (OptLevel : Int) :
    (HLC_ModuleEmitHSAIL env M OptLevel).2 = M ∧
    (HLC_ModuleEmitBRIG env M OptLevel).2 = M ∧
    ((HLC_ModuleEmitHSAIL env M OptLevel).2).to_string = M.to_string ∧
    ((HLC_ModuleEmitBRIG env M OptLevel).2).to_string = M.to_string := by
  have h1 : ¬(OptLevel < 0 ∧ OptLevel > 3) := by omega
  have hh : (HLC_ModuleEmitHSAIL env M OptLevel).2 = M := by
    rcases hc : CompileModule env (cloneModule M) false OptLevel with m | ⟨status, buf, mod⟩
    · simp [HLC_ModuleEmitHSAIL, h1, hc]
    · by_cases hs : status = 0 <;> simp [HLC_ModuleEmitHSAIL, h1, hc, hs]
  have hb : (HLC_ModuleEmitBRIG env M OptLevel).2 = M := by
    rcases hc : CompileModule env (cloneModule M) true OptLevel with m | ⟨status, buf, mod⟩
    · simp [HLC_ModuleEmitBRIG, h1, hc]
    · by_cases hs : status = 0 <;> simp [HLC_ModuleEmitBRIG, h1, hc, hs]
  exact ⟨hh, hb, by rw [hh], by rw [hb]⟩

/-- C2 (code bug): when the target registry cannot resolve the fixed
amdgcn target, CompileModule prints the lookup error but returns status
0, the success code; HLC_ModuleEmitHSAIL therefore returns 1 (success)
handing out an empty string, and HLC_ModuleEmitBRIG returns size 0 while
still writing an empty buffer — neither fails as the specification
requires. -/
theorem emit_unresolved_target_succeeds_with_empty_output :
    CompileModule noTargetEnv M0 false 2 = CompileOutcome.ret 0 "" M0 ∧
    HLC_ModuleEmitHSAIL noTargetEnv M0 2 = (EmitOutcome.ret 1 (some ""), M0) ∧
    HLC_ModuleEmitBRIG noTargetEnv M0 2 = (EmitOutcome.ret 0 (some ""), M0) := by
  decide

/-- C5 (code bug): at optLevel 0 the dispatch flags of Optimize are read
uninitialized; when the indeterminate OptLevelO1 and StandardLinkOpts
slots hold nonzero garbage, Optimize at level 0 builds and runs the
standard link-time bundle and the level-1 bundle, while with all-false
slots it builds no transformation pass at all and the module still
passes the final verification. -/
theorem level0_uninitialized_flags_run_transform_passes :
    (Optimize g0 idEnv garbageU M0 0 0 0).hasTransformPass = true ∧
    (Optimize g0 idEnv garbageU M0 0 0 0).moduleBundles = [mkOptBuilder g0 1 0] ∧
    (Optimize g0 idEnv garbageU M0 0 0 0).modulePassList.any
      (fun p => match p with | Pass.ltoBundle _ => true | _ => false) = true ∧
    (Optimize g0 idEnv u0 M0 0 0 0).hasTransformPass = false ∧
    (Optimize g0 idEnv u0 M0 0 0 0).finalVerifyPassed = true := by
  decide

/-- C3 counterexample: with the default global switches, at optLevel 2
and requested sizeLevel 2 the per-level bundle built inside Optimize has
both loop vectorization and SLP vectorization enabled, contradicting the
claim that with sizeLevel 2 neither is enabled. -/
theorem vectorization_enabled_at_sizeLevel_two :
    (Optimize g0 idEnv u0 M0 2 2 0).moduleBundles = [mkOptBuilder g0 2 0] ∧
    (mkOptBuilder g0 2 0).LoopVectorize = true ∧
    (mkOptBuilder g0 2 0).SLPVectorize = true := by
  decide

/-- C3 amended: for optLevel in {1,2,3}, any requested sizeLevel and the
default command-line vectorization state, the per-level bundle is built
with size level 0 — so, whatever sizeLevel the caller requested, loop
and SLP vectorization are enabled in it exactly when optLevel > 1,
unless the corresponding global disable switch is set. -/
theorem perLevel_vectorization_ignores_requested_sizeLevel (g : Globals)
    (env : Env) (M : Module) (OptLevel SizeLevel Verify : Int)
    (hM : M.broken = false)
    (hL : OptLevel = 1 ∨ OptLevel = 2 ∨ OptLevel = 3)
    (hforce : g.cmdlineLoopVectorize = false) :
    (Optimize g env u0 M OptLevel SizeLevel Verify).moduleBundles =
      [mkOptBuilder g OptLevel.toNat 0] ∧
    (mkOptBuilder g OptLevel.toNat 0).LoopVectorize =
      (!g.DisableLoopVectorization && decide (1 < OptLevel)) ∧
    (mkOptBuilder g OptLevel.toNat 0).SLPVectorize =
      (!g.DisableSLPVectorization && decide (1 < OptLevel)) := by
  have hv := verify_after_strip g M hM
  have hLV : ∀ n : Nat, (mkOptBuilder g n 0).LoopVectorize =
      (!g.DisableLoopVectorization && decide (n > 1)) := by
    intro n
    cases hd : g.DisableLoopVectorization <;> simp [mkOptBuilder, hforce, hd]
  have hSLP : ∀ n : Nat, (mkOptBuilder g n 0).SLPVectorize =
      (!g.DisableSLPVectorization && decide (n > 1)) := by
    intro n
    cases hd : g.DisableSLPVectorization <;> simp [mkOptBuilder, hd]
  rcases hL with h | h | h <;> subst h <;>
    exact ⟨by simp [Optimize, hv, u0, OptimizeResult.moduleBundles,
        AddOptimizationPasses, List.filterMap_cons],
      by simp [hLV], by simp [hSLP]⟩

/-- Witness for the amended C3 at optLevel 2, requested sizeLevel 2. -/
theorem perLevel_vectorization_ignores_requested_sizeLevel_witness :
    M0.broken = false ∧ g0.cmdlineLoopVectorize = false ∧
    ((Optimize g0 idEnv u0 M0 2 2 0).moduleBundles =
      [mkOptBuilder g0 (Int.toNat 2) 0] ∧
    (mkOptBuilder g0 (Int.toNat 2) 0).LoopVectorize =
      (!g0.DisableLoopVectorization && decide (1 < (2 : Int))) ∧
    (mkOptBuilder g0 (Int.toNat 2) 0).SLPVectorize =
      (!g0.DisableSLPVectorization && decide (1 < (2 : Int)))) :=
  ⟨by decide, by decide,
   perLevel_vectorization_ignores_requested_sizeLevel g0 idEnv M0 2 2 0
     (by decide) (Or.inr (Or.inl rfl)) (by decide)⟩

end LibHLC
